import Mathlib

set_option maxHeartbeats 1000000

/-! Shallow embedding of the ETL pipeline in src/sql_queries.py, src/etl.py
and src/create_tables.py: the five star-schema tables are lists of typed
rows, the parameterized DML statements are state transformers over a
database value, and the two transformer entry points are functions over the
parsed contents of one input file. -/

/-- Row of the songs table (sql_queries.py song_table_create): song_id
VARCHAR PRIMARY KEY, title, artist_id, duration REAL, year SMALLINT. REAL
values are modelled as rationals; the pipeline only moves them around and
compares them for equality. -/
structure SongRow where
  song_id : String
  title : String
  artist_id : String
  duration : Rat
  year : Int
deriving DecidableEq, Repr

/-- Row of the artists table (artist_table_create). The nullable REAL
geocoordinates are Option Rat; the pandas NaN that stands for a missing
JSON value is identified with SQL NULL. -/
structure ArtistRow where
  artist_id : String
  artist_name : String
  artist_location : String
  artist_latitude : Option Rat
  artist_longitude : Option Rat
deriving DecidableEq, Repr

/-- Value of pandas to_datetime(ts, utc=True, unit=ms), represented by its
epoch milliseconds: the conversion from int64 milliseconds is injective. -/
structure PdTimestamp where
  ms : Int
deriving DecidableEq, Repr

/-- Row of the time table (time_table_create): timestamp PRIMARY KEY plus
the calendar fields derived by the pandas Series.dt accessors. -/
structure TimeRow where
  timestamp : PdTimestamp
  year : Int
  month : Int
  day : Int
  hour : Int
  weekofyear : Int
  weekday : Int
deriving DecidableEq, Repr

/-- Row of the users table (user_table_create). -/
structure UserRow where
  user_id : Int
  first_name : String
  last_name : String
  gender : String
  level : String
deriving DecidableEq, Repr

/-- Row of the songplays table (songplay_table_create): songplay_id SERIAL
PRIMARY KEY, nullable song_id and artist_id, session context columns. -/
structure SongplayRow where
  songplay_id : Nat
  timestamp : PdTimestamp
  song_id : Option String
  artist_id : Option String
  user_id : Int
  session_id : Int
  level : String
  location : String
  user_agent : String
deriving DecidableEq, Repr

/-- Contents of the five tables once they all exist. -/
structure DB where
  songs : List SongRow
  artists : List ArtistRow
  time : List TimeRow
  users : List UserRow
  songplays : List SongplayRow
deriving DecidableEq, Repr

def DB.empty : DB := ⟨[], [], [], [], []⟩

/-! Calendar derivation used by the log transform: pandas converts the
epoch-millisecond column with to_datetime(utc=True, unit=ms) and reads
Series.dt.year, month, day, hour, weekofyear (ISO 8601 week) and weekday
(Monday = 0). All divisions below have positive divisors, so Int.fdiv and
Int.fmod are the floor division and nonnegative remainder that the
conversion uses. -/

def msPerDay : Int := 86400000

def tsDays (ms : Int) : Int := Int.fdiv ms msPerDay

def tsHour (ms : Int) : Int := Int.fdiv (Int.fmod ms msPerDay) 3600000

/-- Proleptic Gregorian civil date (year, month, day) of a day count
relative to 1970-01-01. -/
def civilFromDays (z0 : Int) : Int × Int × Int :=
  let z := z0 + 719468
  let era := Int.fdiv z 146097
  let doe := z - era * 146097
  let yoe :=
    Int.fdiv (doe - Int.fdiv doe 1460 + Int.fdiv doe 36524 - Int.fdiv doe 146096) 365
  let y := yoe + era * 400
  let doy := doe - (365 * yoe + Int.fdiv yoe 4 - Int.fdiv yoe 100)
  let mp := Int.fdiv (5 * doy + 2) 153
  let d := doy - Int.fdiv (153 * mp + 2) 5 + 1
  let m := mp + (if mp < 10 then 3 else -9)
  (y + (if m ≤ 2 then 1 else 0), m, d)

/-- Day count relative to 1970-01-01 of a proleptic Gregorian civil date. -/
def daysFromCivil (y m d : Int) : Int :=
  let yy := y - (if m ≤ 2 then 1 else 0)
  let era := Int.fdiv yy 400
  let yoe := yy - era * 400
  let mp := m + (if 2 < m then -3 else 9)
  let doy := Int.fdiv (153 * mp + 2) 5 + d - 1
  let doe := yoe * 365 + Int.fdiv yoe 4 - Int.fdiv yoe 100 + doy
  era * 146097 + doe - 719468

def tsYear (ms : Int) : Int := (civilFromDays (tsDays ms)).1

def tsMonth (ms : Int) : Int := (civilFromDays (tsDays ms)).2.1

def tsDay (ms : Int) : Int := (civilFromDays (tsDays ms)).2.2

/-- Weekday with Monday = 0 (pandas Series.dt.weekday); 1970-01-01 was a
Thursday, hence the shift by 3. -/
def tsWeekday (ms : Int) : Int := Int.fmod (tsDays ms + 3) 7

def isoYearShift (y : Int) : Int :=
  Int.fmod (y + Int.fdiv y 4 - Int.fdiv y 100 + Int.fdiv y 400) 7

def isoWeeksInYear (y : Int) : Int :=
  52 + (if isoYearShift y = 4 ∨ isoYearShift (y - 1) = 3 then 1 else 0)

/-- ISO 8601 week of year (pandas Series.dt.weekofyear). -/
def tsWeekofyear (ms : Int) : Int :=
  let days := tsDays ms
  let y := (civilFromDays days).1
  let doy := days - daysFromCivil y 1 1 + 1
  let isoWd := tsWeekday ms + 1
  let w := Int.fdiv (doy - isoWd + 10) 7
  if w < 1 then isoWeeksInYear (y - 1)
  else if isoWeeksInYear y < w then 1
  else w

/-- One row of the time dataframe built in process_log_file lines 92-99:
the converted timestamp together with its derived calendar fields. -/
def timeRowOf (ts : Int) : TimeRow :=
  ⟨⟨ts⟩, tsYear ts, tsMonth ts, tsDay ts, tsHour ts, tsWeekofyear ts, tsWeekday ts⟩

/-! The six parameterized DML statements of src/sql_queries.py as state
transformers. The four dimension inserts carry ON CONFLICT (key) DO
NOTHING: when a row with the same key is already present the statement is
a no-op, otherwise the row is appended. The fact insert has no conflict
guard and always appends, with the SERIAL songplay_id numbering rows from
one. -/

def insertSong (db : DB) (r : SongRow) : DB :=
  if ∃ s ∈ db.songs, s.song_id = r.song_id then db
  else { db with songs := db.songs ++ [r] }

def insertArtist (db : DB) (r : ArtistRow) : DB :=
  if ∃ a ∈ db.artists, a.artist_id = r.artist_id then db
  else { db with artists := db.artists ++ [r] }

def insertTime (db : DB) (r : TimeRow) : DB :=
  if ∃ x ∈ db.time, x.timestamp = r.timestamp then db
  else { db with time := db.time ++ [r] }

def insertUser (db : DB) (r : UserRow) : DB :=
  if ∃ u ∈ db.users, u.user_id = r.user_id then db
  else { db with users := db.users ++ [r] }

def insertSongplay (db : DB) (t : PdTimestamp) (sid aid : Option String)
    (uid sess : Int) (lvl loc ua : String) : DB :=
  { db with songplays := db.songplays ++
      [⟨db.songplays.length + 1, t, sid, aid, uid, sess, lvl, loc, ua⟩] }

/-- SONG_SELECT: join songs and artists on artist_id, keep the pairs whose
title, artist name and duration match the given values exactly, and return
the (song_id, artist_id) columns. -/
def song_select (songs : List SongRow) (artists : List ArtistRow)
    (song artist : String) (len : Rat) : List (String × String) :=
  songs.flatMap (fun s =>
    artists.filterMap (fun a =>
      if a.artist_id = s.artist_id ∧ s.title = song ∧
          a.artist_name = artist ∧ s.duration = len
      then some (s.song_id, s.artist_id) else none))

/-! Song-metadata files. -/

/-- Fully populated song-metadata record: the nine fields that
process_song_file reads. -/
structure SongRecord where
  song_id : String
  title : String
  artist_id : String
  year : Int
  duration : Rat
  artist_name : String
  artist_location : String
  artist_latitude : Option Rat
  artist_longitude : Option Rat
deriving DecidableEq, Repr

/-- Song-metadata record as parsed by pandas: a field is none when its
column is absent from the file, in which case selecting that column raises
KeyError. A present nullable geocoordinate carries an inner Option. -/
structure RawSongRecord where
  song_id : Option String
  title : Option String
  artist_id : Option String
  year : Option Int
  duration : Option Rat
  artist_name : Option String
  artist_location : Option String
  artist_latitude : Option (Option Rat)
  artist_longitude : Option (Option Rat)
deriving DecidableEq, Repr

def SongRecord.toRaw (r : SongRecord) : RawSongRecord :=
  ⟨some r.song_id, some r.title, some r.artist_id, some r.year, some r.duration,
   some r.artist_name, some r.artist_location, some r.artist_latitude,
   some r.artist_longitude⟩

/-- The PostgreSQL assignment cast of a decimal constant into the SMALLINT
year column: round to the nearest integer, ties away from zero. For a
nonnegative q = num / den this is the floor of (2 num + den) / (2 den),
and symmetrically for negative q; spelled on num and den directly so that
it evaluates by kernel reduction. -/
def pgCastToSmallint (q : Rat) : Int :=
  if 0 ≤ q.num then Int.fdiv (2 * q.num + q.den) (2 * q.den)
  else -Int.fdiv ((q.den : Int) - 2 * q.num) (2 * q.den)

/-- process_song_file (etl.py lines 20-59): select row 0 of the file,
execute SONG_TABLE_INSERT, then execute ARTIST_TABLE_INSERT. The song
parameters are listed as (song_id, title, artist_id, year, duration) while
the INSERT column list is (song_id, title, artist_id, duration, year), so
the year value lands in the duration REAL column through the
integer-to-real cast and the duration value lands in the year SMALLINT
column through the rounding cast. Each execute is autocommitted, so the
returned database keeps every insert issued before a failure; the Bool is
false when a pandas selection raises (empty file, or a required column
missing) and the file aborts. -/
def process_song_file (db : DB) (file : List RawSongRecord) : DB × Bool :=
  match file with
  | [] => (db, false)
  | r :: _ =>
    match r.song_id, r.title, r.artist_id, r.year, r.duration with
    | some sid, some tit, some aid, some yr, some dur =>
      let db1 := insertSong db ⟨sid, tit, aid, (yr : Rat), pgCastToSmallint dur⟩
      match r.artist_name, r.artist_location, r.artist_latitude,
          r.artist_longitude with
      | some an, some al, some alat, some alng =>
        (insertArtist db1 ⟨aid, an, al, alat, alng⟩, true)
      | _, _, _, _ => (db1, false)
    | _, _, _, _, _ => (db, false)

/-! Log files. -/

/-- One raw event record of a log file, with the columns process_log_file
reads. -/
structure LogRecord where
  page : String
  ts : Int
  userId : Int
  firstName : String
  lastName : String
  gender : String
  level : String
  song : String
  artist : String
  length : Rat
  sessionId : Int
  location : String
  userAgent : String
deriving DecidableEq, Repr

/-- cur.fetchone after SONG_SELECT (etl.py lines 115-121): the first result
row if any, unpacked into the possibly null id pair. -/
def lookupIds (db : DB) (r : LogRecord) : Option String × Option String :=
  match (song_select db.songs db.artists r.song r.artist r.length).head? with
  | some p => (some p.1, some p.2)
  | none => (none, none)

/-- First loop of process_log_file (lines 101-102): one TIME_TABLE_INSERT
per retained record. -/
def timePass (db : DB) (rs : List LogRecord) : DB :=
  rs.foldl (fun d r => insertTime d (timeRowOf r.ts)) db

/-- Second loop of process_log_file (lines 108-109): one USER_TABLE_INSERT
per retained record. -/
def userPass (db : DB) (rs : List LogRecord) : DB :=
  rs.foldl
    (fun d r => insertUser d ⟨r.userId, r.firstName, r.lastName, r.gender, r.level⟩)
    db

/-- Third loop of process_log_file (lines 112-127): look up the id pair and
execute one SONGPLAY_TABLE_INSERT per retained record, with the converted
timestamp of that same record. -/
def songplayPass (db : DB) (rs : List LogRecord) : DB :=
  rs.foldl
    (fun d r =>
      let ids := lookupIds d r
      insertSongplay d ⟨r.ts⟩ ids.1 ids.2 r.userId r.sessionId r.level
        r.location r.userAgent)
    db

/-- process_log_file (etl.py lines 62-127): filter the file to the records
with page equal to NextSong, then run the three insert loops in order. -/
def process_log_file (db : DB) (file : List LogRecord) : DB :=
  let retained := file.filter (fun r => decide (r.page = "NextSong"))
  songplayPass (userPass (timePass db retained) retained) retained

/-! Schema manager (src/create_tables.py and the query lists of
src/sql_queries.py). A table is none while absent; DROP TABLE IF EXISTS
and CREATE TABLE IF NOT EXISTS are total, neither raises. -/

inductive TableName where
  | songs | artists | time | users | songplays
deriving DecidableEq, Repr

/-- Schema-level database state: each of the five tables is either absent
or present with its rows. -/
structure PgState where
  songs : Option (List SongRow)
  artists : Option (List ArtistRow)
  time : Option (List TimeRow)
  users : Option (List UserRow)
  songplays : Option (List SongplayRow)
deriving DecidableEq, Repr

inductive Query where
  | dropTable (t : TableName)
  | createTable (t : TableName)
deriving DecidableEq, Repr

/-- cur.execute of one DDL statement: DROP TABLE IF EXISTS removes the
table and is a no-op when it is absent; CREATE TABLE IF NOT EXISTS creates
an empty table and keeps an existing one untouched. -/
def execSQL (s : PgState) (q : Query) : PgState :=
  match q with
  | .dropTable .songs => { s with songs := none }
  | .dropTable .artists => { s with artists := none }
  | .dropTable .time => { s with time := none }
  | .dropTable .users => { s with users := none }
  | .dropTable .songplays => { s with songplays := none }
  | .createTable .songs => { s with songs := some (s.songs.getD []) }
  | .createTable .artists => { s with artists := some (s.artists.getD []) }
  | .createTable .time => { s with time := some (s.time.getD []) }
  | .createTable .users => { s with users := some (s.users.getD []) }
  | .createTable .songplays => { s with songplays := some (s.songplays.getD []) }

def table_names : List TableName := [.songs, .artists, .time, .users, .songplays]

def DROP_TABLE_QUERIES : List Query := table_names.map Query.dropTable

def CREATE_TABLE_QUERIES : List Query :=
  [.createTable .songs, .createTable .artists, .createTable .time,
   .createTable .users, .createTable .songplays]

def execute_queries (s : PgState) (qs : List Query) : PgState := qs.foldl execSQL s

/-- create_tables.main lines 95-96: execute all drops, then all creates. -/
def schema_reset (s : PgState) : PgState :=
  execute_queries (execute_queries s DROP_TABLE_QUERIES) CREATE_TABLE_QUERIES

def PgState.freshEmpty : PgState := ⟨some [], some [], some [], some [], some []⟩

/-! Concrete records of the end-to-end scenarios in the spec. -/

/-- The scenario duration 218.38 seconds, written as the reduced rational
10919 / 50 so that comparisons on it evaluate by kernel reduction. -/
def rat218_38 : Rat := ⟨10919, 50, by decide, by decide⟩

def songRecordScenario1 : SongRecord :=
  ⟨"SOSERIE12AB01849C", "Der Kuckuck und der Esel", "AR8IEZO1187B99055E",
   0, rat218_38, "Sonnentanz", "", none, none⟩

def logRecordScenario2 : LogRecord :=
  ⟨"NextSong", 1541121934796, 10, "Sylvie", "Cruz", "F", "paid",
   "Der Kuckuck und der Esel", "Sonnentanz", rat218_38, 100,
   "San Francisco-Oakland-Hayward, CA", "Mozilla"⟩

/-! Specification helpers used to state what the third loop emits. -/

/-- The songplay row the third loop appends for record r when the songplays
table already holds n rows, written as a function of the songs and artists
tables it reads. -/
def factRow (songs : List SongRow) (artists : List ArtistRow) (n : Nat)
    (r : LogRecord) : SongplayRow :=
  match (song_select songs artists r.song r.artist r.length).head? with
  | some p => ⟨n + 1, ⟨r.ts⟩, some p.1, some p.2, r.userId, r.sessionId,
      r.level, r.location, r.userAgent⟩
  | none => ⟨n + 1, ⟨r.ts⟩, none, none, r.userId, r.sessionId,
      r.level, r.location, r.userAgent⟩

/-- The songplay rows the third loop appends for a record list, starting
from n already present rows. -/
def factsFrom (songs : List SongRow) (artists : List ArtistRow) (n : Nat) :
    List LogRecord → List SongplayRow
  | [] => []
  | r :: rs => factRow songs artists n r :: factsFrom songs artists (n + 1) rs

/-- One of the five columns read for the song insert is absent. -/
def RawSongRecord.missingSongField (r : RawSongRecord) : Prop :=
  r.song_id = none ∨ r.title = none ∨ r.artist_id = none ∨ r.year = none ∨
    r.duration = none

/-- One of the four further columns read for the artist insert is absent. -/
def RawSongRecord.missingArtistField (r : RawSongRecord) : Prop :=
  r.artist_name = none ∨ r.artist_location = none ∨
    r.artist_latitude = none ∨ r.artist_longitude = none

/-- A record whose only absent required column is artist_name: the song
columns are all present, so the song insert runs before the artist column
selection raises. -/
def rawMissingArtistName : RawSongRecord :=
  ⟨some "SOAAAAA12AB0186AAA", some "Title A", some "ARAAAAA1187B9AAAAA",
   some 1999, some 100, none, some "", some none, some none⟩

/-- First record of the scenario with two retained records sharing one
timestamp. -/
def logRecordScenario3a : LogRecord :=
  ⟨"NextSong", 1541121934796, 10, "Sylvie", "Cruz", "F", "paid",
   "Some Song", "Some Artist", 200, 100,
   "San Francisco-Oakland-Hayward, CA", "Mozilla"⟩

/-- Second record of that scenario: same ts, different user and session. -/
def logRecordScenario3b : LogRecord :=
  ⟨"NextSong", 1541121934796, 26, "Ryan", "Smith", "M", "free",
   "Other Song", "Other Artist", 150, 200,
   "San Jose-Sunnyvale-Santa Clara, CA", "Firefox"⟩

/-- The songplay row produced for logRecordScenario2 over the empty
database: serial id 1, null dimension ids, the session context columns. -/
def songplayRowC9 : SongplayRow :=
  ⟨1, ⟨1541121934796⟩, none, none, 10, 100, "paid",
   "San Francisco-Oakland-Hayward, CA", "Mozilla"⟩

/-! Helper lemmas about the insert transformers. -/

theorem insertSong_artists (db : DB) (r : SongRow) :
    (insertSong db r).artists = db.artists := by
  unfold insertSong
  split <;> rfl

theorem insertArtist_songs (db : DB) (r : ArtistRow) :
    (insertArtist db r).songs = db.songs := by
  unfold insertArtist
  split <;> rfl

theorem insertSong_mem_key (db : DB) (r : SongRow) :
    ∃ s ∈ (insertSong db r).songs, s.song_id = r.song_id := by
  by_cases h : ∃ s ∈ db.songs, s.song_id = r.song_id
  · simp [insertSong, h]
  · refine ⟨r, ?_, rfl⟩
    simp [insertSong, h]

theorem insertArtist_mem_key (db : DB) (r : ArtistRow) :
    ∃ a ∈ (insertArtist db r).artists, a.artist_id = r.artist_id := by
  by_cases h : ∃ a ∈ db.artists, a.artist_id = r.artist_id
  · simp [insertArtist, h]
  · refine ⟨r, ?_, rfl⟩
    simp [insertArtist, h]

theorem insertSong_of_mem (db : DB) (r : SongRow)
    (h : ∃ s ∈ db.songs, s.song_id = r.song_id) : insertSong db r = db := by
  simp [insertSong, h]

theorem insertArtist_of_mem (db : DB) (r : ArtistRow)
    (h : ∃ a ∈ db.artists, a.artist_id = r.artist_id) :
    insertArtist db r = db := by
  simp [insertArtist, h]

theorem insertTime_songs (db : DB) (r : TimeRow) :
    (insertTime db r).songs = db.songs := by
  unfold insertTime
  split <;> rfl

theorem insertTime_artists (db : DB) (r : TimeRow) :
    (insertTime db r).artists = db.artists := by
  unfold insertTime
  split <;> rfl

theorem insertTime_users (db : DB) (r : TimeRow) :
    (insertTime db r).users = db.users := by
  unfold insertTime
  split <;> rfl

theorem insertTime_songplays (db : DB) (r : TimeRow) :
    (insertTime db r).songplays = db.songplays := by
  unfold insertTime
  split <;> rfl

theorem insertUser_songs (db : DB) (r : UserRow) :
    (insertUser db r).songs = db.songs := by
  unfold insertUser
  split <;> rfl

theorem insertUser_artists (db : DB) (r : UserRow) :
    (insertUser db r).artists = db.artists := by
  unfold insertUser
  split <;> rfl

theorem insertUser_time (db : DB) (r : UserRow) :
    (insertUser db r).time = db.time := by
  unfold insertUser
  split <;> rfl

theorem insertUser_songplays (db : DB) (r : UserRow) :
    (insertUser db r).songplays = db.songplays := by
  unfold insertUser
  split <;> rfl

/-! Helper lemmas about the three loops of process_log_file. -/

theorem timePass_cons (db : DB) (r : LogRecord) (rs : List LogRecord) :
    timePass db (r :: rs) = timePass (insertTime db (timeRowOf r.ts)) rs := rfl

theorem userPass_cons (db : DB) (r : LogRecord) (rs : List LogRecord) :
    userPass db (r :: rs) =
      userPass
        (insertUser db ⟨r.userId, r.firstName, r.lastName, r.gender, r.level⟩)
        rs := rfl

theorem songplayPass_cons (db : DB) (r : LogRecord) (rs : List LogRecord) :
    songplayPass db (r :: rs) =
      songplayPass
        (insertSongplay db ⟨r.ts⟩ (lookupIds db r).1 (lookupIds db r).2
          r.userId r.sessionId r.level r.location r.userAgent) rs := rfl

theorem timePass_songs (rs : List LogRecord) :
    ∀ db : DB, (timePass db rs).songs = db.songs := by
  induction rs with
  | nil => intro db; rfl
  | cons r rs ih => intro db; rw [timePass_cons, ih, insertTime_songs]

theorem timePass_artists (rs : List LogRecord) :
    ∀ db : DB, (timePass db rs).artists = db.artists := by
  induction rs with
  | nil => intro db; rfl
  | cons r rs ih => intro db; rw [timePass_cons, ih, insertTime_artists]

theorem timePass_users (rs : List LogRecord) :
    ∀ db : DB, (timePass db rs).users = db.users := by
  induction rs with
  | nil => intro db; rfl
  | cons r rs ih => intro db; rw [timePass_cons, ih, insertTime_users]

theorem timePass_songplays (rs : List LogRecord) :
    ∀ db : DB, (timePass db rs).songplays = db.songplays := by
  induction rs with
  | nil => intro db; rfl
  | cons r rs ih => intro db; rw [timePass_cons, ih, insertTime_songplays]

theorem userPass_songs (rs : List LogRecord) :
    ∀ db : DB, (userPass db rs).songs = db.songs := by
  induction rs with
  | nil => intro db; rfl
  | cons r rs ih => intro db; rw [userPass_cons, ih, insertUser_songs]

theorem userPass_artists (rs : List LogRecord) :
    ∀ db : DB, (userPass db rs).artists = db.artists := by
  induction rs with
  | nil => intro db; rfl
  | cons r rs ih => intro db; rw [userPass_cons, ih, insertUser_artists]

theorem userPass_time (rs : List LogRecord) :
    ∀ db : DB, (userPass db rs).time = db.time := by
  induction rs with
  | nil => intro db; rfl
  | cons r rs ih => intro db; rw [userPass_cons, ih, insertUser_time]

theorem userPass_songplays (rs : List LogRecord) :
    ∀ db : DB, (userPass db rs).songplays = db.songplays := by
  induction rs with
  | nil => intro db; rfl
  | cons r rs ih => intro db; rw [userPass_cons, ih, insertUser_songplays]

theorem songplayPass_songs (rs : List LogRecord) :
    ∀ db : DB, (songplayPass db rs).songs = db.songs := by
  induction rs with
  | nil => intro db; rfl
  | cons r rs ih => intro db; rw [songplayPass_cons, ih]; rfl

theorem songplayPass_artists (rs : List LogRecord) :
    ∀ db : DB, (songplayPass db rs).artists = db.artists := by
  induction rs with
  | nil => intro db; rfl
  | cons r rs ih => intro db; rw [songplayPass_cons, ih]; rfl

theorem songplayPass_time (rs : List LogRecord) :
    ∀ db : DB, (songplayPass db rs).time = db.time := by
  induction rs with
  | nil => intro db; rfl
  | cons r rs ih => intro db; rw [songplayPass_cons, ih]; rfl

theorem songplayPass_users (rs : List LogRecord) :
    ∀ db : DB, (songplayPass db rs).users = db.users := by
  induction rs with
  | nil => intro db; rfl
  | cons r rs ih => intro db; rw [songplayPass_cons, ih]; rfl

theorem step_songplays (db : DB) (r : LogRecord) :
    (insertSongplay db ⟨r.ts⟩ (lookupIds db r).1 (lookupIds db r).2 r.userId
        r.sessionId r.level r.location r.userAgent).songplays =
      db.songplays ++ [factRow db.songs db.artists db.songplays.length r] := by
  cases h : (song_select db.songs db.artists r.song r.artist r.length).head? with
  | none => simp [lookupIds, factRow, insertSongplay, h]
  | some p => simp [lookupIds, factRow, insertSongplay, h]

theorem songplayPass_songplays (rs : List LogRecord) :
    ∀ db : DB, (songplayPass db rs).songplays =
      db.songplays ++ factsFrom db.songs db.artists db.songplays.length rs := by
  induction rs with
  | nil => intro db; simp [songplayPass, factsFrom]
  | cons r rs ih =>
    intro db
    rw [songplayPass_cons, ih, step_songplays]
    simp [insertSongplay, factsFrom, List.append_assoc]

theorem factsFrom_length (songs : List SongRow) (artists : List ArtistRow)
    (rs : List LogRecord) :
    ∀ n : Nat, (factsFrom songs artists n rs).length = rs.length := by
  induction rs with
  | nil => intro n; rfl
  | cons r rs ih => intro n; simp [factsFrom, ih]

theorem factsFrom_get (songs : List SongRow) (artists : List ArtistRow)
    (rs : List LogRecord) :
    ∀ (n i : Nat) (hi : i < rs.length)
      (hj : i < (factsFrom songs artists n rs).length),
      (factsFrom songs artists n rs).get ⟨i, hj⟩ =
        factRow songs artists (n + i) (rs.get ⟨i, hi⟩) := by
  induction rs with
  | nil => intro n i hi hj; exact absurd hi (Nat.not_lt_zero i)
  | cons r rs ih =>
    intro n i hi hj
    cases i with
    | zero => simp [factsFrom]
    | succ k =>
      have hk : k < rs.length := Nat.lt_of_succ_lt_succ hi
      have hjk : k < (factsFrom songs artists (n + 1) rs).length := by
        rw [factsFrom_length]; exact hk
      have hstep : n + (k + 1) = n + 1 + k := by omega
      simp only [factsFrom, List.get_cons_succ]
      rw [ih (n + 1) k hk hjk, hstep]

theorem process_log_file_def (db : DB) (file : List LogRecord) :
    process_log_file db file =
      songplayPass
        (userPass
          (timePass db (file.filter (fun r => decide (r.page = "NextSong"))))
          (file.filter (fun r => decide (r.page = "NextSong"))))
        (file.filter (fun r => decide (r.page = "NextSong"))) := rfl

theorem process_log_file_songplays (db : DB) (file : List LogRecord) :
    (process_log_file db file).songplays =
      db.songplays ++
        factsFrom db.songs db.artists db.songplays.length
          (file.filter (fun r => decide (r.page = "NextSong"))) := by
  rw [process_log_file_def, songplayPass_songplays, userPass_songs,
    timePass_songs, userPass_artists, timePass_artists, userPass_songplays,
    timePass_songplays]

/-! Membership lemmas for the time and user dedup inserts. -/

theorem insertTime_mem_keep (db : DB) (t x : TimeRow) (hx : x ∈ db.time) :
    x ∈ (insertTime db t).time := by
  by_cases h : ∃ y ∈ db.time, y.timestamp = t.timestamp
  · simpa [insertTime, h] using hx
  · simp only [insertTime, h, if_false, List.mem_append]
    exact Or.inl hx

theorem insertTime_key_exists (db : DB) (t : TimeRow) :
    ∃ x ∈ (insertTime db t).time, x.timestamp = t.timestamp := by
  by_cases h : ∃ y ∈ db.time, y.timestamp = t.timestamp
  · obtain ⟨y, hy, he⟩ := h
    refine ⟨y, ?_, he⟩
    have hmem : ∃ z ∈ db.time, z.timestamp = t.timestamp := ⟨y, hy, he⟩
    have heq : insertTime db t = db := by simp [insertTime, hmem]
    rw [heq]
    exact hy
  · refine ⟨t, ?_, rfl⟩
    simp [insertTime, h]

theorem timePass_mem_keep (rs : List LogRecord) :
    ∀ (db : DB) (x : TimeRow), x ∈ db.time → x ∈ (timePass db rs).time := by
  induction rs with
  | nil => intro db x hx; exact hx
  | cons r rs ih =>
    intro db x hx
    rw [timePass_cons]
    exact ih _ x (insertTime_mem_keep db (timeRowOf r.ts) x hx)

theorem timePass_key_exists (rs : List LogRecord) :
    ∀ (db : DB) (r : LogRecord), r ∈ rs →
      ∃ x ∈ (timePass db rs).time, x.timestamp = (⟨r.ts⟩ : PdTimestamp) := by
  induction rs with
  | nil => intro db r h; exact absurd h (List.not_mem_nil r)
  | cons r0 rs ih =>
    intro db r h
    rcases List.mem_cons.mp h with h | h
    · subst h
      rw [timePass_cons]
      obtain ⟨x, hx, he⟩ := insertTime_key_exists db (timeRowOf r.ts)
      exact ⟨x, timePass_mem_keep rs _ x hx, he⟩
    · rw [timePass_cons]
      exact ih _ r h

theorem insertUser_mem_keep (db : DB) (u x : UserRow) (hx : x ∈ db.users) :
    x ∈ (insertUser db u).users := by
  by_cases h : ∃ y ∈ db.users, y.user_id = u.user_id
  · simpa [insertUser, h] using hx
  · simp only [insertUser, h, if_false, List.mem_append]
    exact Or.inl hx

theorem insertUser_key_exists (db : DB) (u : UserRow) :
    ∃ x ∈ (insertUser db u).users, x.user_id = u.user_id := by
  by_cases h : ∃ y ∈ db.users, y.user_id = u.user_id
  · obtain ⟨y, hy, he⟩ := h
    refine ⟨y, ?_, he⟩
    have hmem : ∃ z ∈ db.users, z.user_id = u.user_id := ⟨y, hy, he⟩
    have heq : insertUser db u = db := by simp [insertUser, hmem]
    rw [heq]
    exact hy
  · refine ⟨u, ?_, rfl⟩
    simp [insertUser, h]

theorem userPass_mem_keep (rs : List LogRecord) :
    ∀ (db : DB) (x : UserRow), x ∈ db.users → x ∈ (userPass db rs).users := by
  induction rs with
  | nil => intro db x hx; exact hx
  | cons r rs ih =>
    intro db x hx
    rw [userPass_cons]
    exact ih _ x
      (insertUser_mem_keep db ⟨r.userId, r.firstName, r.lastName, r.gender, r.level⟩ x hx)

theorem userPass_key_exists (rs : List LogRecord) :
    ∀ (db : DB) (r : LogRecord), r ∈ rs →
      ∃ x ∈ (userPass db rs).users, x.user_id = r.userId := by
  induction rs with
  | nil => intro db r h; exact absurd h (List.not_mem_nil r)
  | cons r0 rs ih =>
    intro db r h
    rcases List.mem_cons.mp h with h | h
    · subst h
      rw [userPass_cons]
      obtain ⟨x, hx, he⟩ :=
        insertUser_key_exists db ⟨r.userId, r.firstName, r.lastName, r.gender, r.level⟩
      exact ⟨x, userPass_mem_keep rs _ x hx, he⟩
    · rw [userPass_cons]
      exact ih _ r h

theorem factRow_timestamp (songs : List SongRow) (artists : List ArtistRow)
    (n : Nat) (r : LogRecord) :
    (factRow songs artists n r).timestamp = (⟨r.ts⟩ : PdTimestamp) := by
  unfold factRow
  cases (song_select songs artists r.song r.artist r.length).head? <;> rfl

theorem factRow_user_id (songs : List SongRow) (artists : List ArtistRow)
    (n : Nat) (r : LogRecord) :
    (factRow songs artists n r).user_id = r.userId := by
  unfold factRow
  cases (song_select songs artists r.song r.artist r.length).head? <;> rfl

theorem factsFrom_mem (songs : List SongRow) (artists : List ArtistRow)
    (rs : List LogRecord) :
    ∀ (n : Nat) (row : SongplayRow), row ∈ factsFrom songs artists n rs →
      ∃ r ∈ rs, row.timestamp = (⟨r.ts⟩ : PdTimestamp) ∧
        row.user_id = r.userId := by
  induction rs with
  | nil => intro n row h; simp [factsFrom] at h
  | cons r rs ih =>
    intro n row h
    simp only [factsFrom] at h
    rcases List.mem_cons.mp h with h | h
    · exact ⟨r, List.mem_cons_self r rs,
        by rw [h, factRow_timestamp], by rw [h, factRow_user_id]⟩
    · obtain ⟨r2, hr2, hts, hid⟩ := ih (n + 1) row h
      exact ⟨r2, List.mem_cons_of_mem r hr2, hts, hid⟩

/-! Claim theorems. -/

/-- C1: processing the file that contains the scenario-1 record yields
exactly one song row and one artist row, but the numeric song values are
not the input values: the duration column stores the year 0 and the year
column stores the duration rounded to 218, because the parameter list
(song_id, title, artist_id, year, duration) is zipped against the INSERT
column list (song_id, title, artist_id, duration, year). The artist row
does carry the input values. -/
theorem C1_stored_row_values :
    process_song_file DB.empty [songRecordScenario1.toRaw] =
      ({ songs := [⟨"SOSERIE12AB01849C", "Der Kuckuck und der Esel",
            "AR8IEZO1187B99055E", 0, 218⟩],
         artists := [⟨"AR8IEZO1187B99055E", "Sonnentanz", "", none, none⟩],
         time := [], users := [], songplays := [] }, true) := by
  decide

/-- C2 counterexample: a record whose only absent required column is
artist_name makes the file abort, yet the songs table is no longer as it
was before the transform started: the autocommitted song insert has
already run. -/
theorem C2_counterexample :
    (process_song_file DB.empty [rawMissingArtistName]).2 = false ∧
      (process_song_file DB.empty [rawMissingArtistName]).1.songs ≠ [] := by
  decide

/-- C2 amended: a record missing a required column always aborts the file
with an error and never touches the artists table; the database is left
fully unchanged when one of the five song columns is missing, but when only
an artist column is missing the song row insert has already been
autocommitted before the failure. -/
theorem C2_partial_insert (db : DB) (r : RawSongRecord)
    (h : r.missingSongField ∨ r.missingArtistField) :
    (process_song_file db [r]).2 = false ∧
      (r.missingSongField → (process_song_file db [r]).1 = db) ∧
      (process_song_file db [r]).1.artists = db.artists := by
  obtain ⟨sid, tit, aid, yr, dur, an, al, alat, alng⟩ := r
  simp only [RawSongRecord.missingSongField, RawSongRecord.missingArtistField] at h ⊢
  cases sid <;> cases tit <;> cases aid <;> cases yr <;> cases dur <;>
    cases an <;> cases al <;> cases alat <;> cases alng <;>
    simp_all [process_song_file, insertSong_artists]

/-- C2 amended, witness at the concrete counterexample record over the
empty database. -/
theorem C2_partial_insert_witness :
    (process_song_file DB.empty [rawMissingArtistName]).2 = false ∧
      (rawMissingArtistName.missingSongField →
        (process_song_file DB.empty [rawMissingArtistName]).1 = DB.empty) ∧
      (process_song_file DB.empty [rawMissingArtistName]).1.artists =
        DB.empty.artists :=
  C2_partial_insert DB.empty rawMissingArtistName (Or.inr (Or.inl rfl))

/-- C5: processing the same complete song record a second time is a silent
no-op: the second run reports success and returns the database exactly as
it was after the first run, for both the songs and the artists table. -/
theorem C5_reinsert_noop (db : DB) (r : SongRecord) :
    process_song_file (process_song_file db [r.toRaw]).1 [r.toRaw] =
      ((process_song_file db [r.toRaw]).1, true) := by
  have h1 : ∀ d : DB, process_song_file d [r.toRaw] =
      (insertArtist
        (insertSong d ⟨r.song_id, r.title, r.artist_id, (r.year : Rat),
          pgCastToSmallint r.duration⟩)
        ⟨r.artist_id, r.artist_name, r.artist_location, r.artist_latitude,
          r.artist_longitude⟩, true) := fun d => rfl
  simp only [h1]
  have hs : insertSong
      (insertArtist
        (insertSong db ⟨r.song_id, r.title, r.artist_id, (r.year : Rat),
          pgCastToSmallint r.duration⟩)
        ⟨r.artist_id, r.artist_name, r.artist_location, r.artist_latitude,
          r.artist_longitude⟩)
      ⟨r.song_id, r.title, r.artist_id, (r.year : Rat),
        pgCastToSmallint r.duration⟩ =
      insertArtist
        (insertSong db ⟨r.song_id, r.title, r.artist_id, (r.year : Rat),
          pgCastToSmallint r.duration⟩)
        ⟨r.artist_id, r.artist_name, r.artist_location, r.artist_latitude,
          r.artist_longitude⟩ := by
    apply insertSong_of_mem
    rw [insertArtist_songs]
    exact insertSong_mem_key db _
  rw [hs]
  rw [insertArtist_of_mem _ _ (insertArtist_mem_key _ _)]

/-- C8: running the drop-all-then-create-all sequence from any schema state
never raises (both DDL forms are total no-ops on conflict), is idempotent,
and always ends with the five tables existing and empty. -/
theorem C8_schema_reset (s : PgState) :
    schema_reset (schema_reset s) = schema_reset s ∧
      schema_reset s = PgState.freshEmpty :=
  ⟨rfl, rfl⟩

/-- C10: for a song file with more than one record only row 0 is read: the
result equals processing the singleton file of the first record, which
succeeds and issues exactly the one song insert and one artist insert built
from that record; every later record is ignored. -/
theorem C10_first_record_only (db : DB) (r : SongRecord)
    (rest : List SongRecord) :
    process_song_file db ((r :: rest).map SongRecord.toRaw) =
        process_song_file db [r.toRaw] ∧
      (process_song_file db [r.toRaw]).2 = true ∧
      (process_song_file db [r.toRaw]).1 =
        insertArtist
          (insertSong db ⟨r.song_id, r.title, r.artist_id, (r.year : Rat),
            pgCastToSmallint r.duration⟩)
          ⟨r.artist_id, r.artist_name, r.artist_location, r.artist_latitude,
            r.artist_longitude⟩ :=
  ⟨rfl, rfl, rfl⟩

/-- C3: when the lookup for the retained record at position i finds no
match, the transform still emits exactly one songplay row per retained
record (the transform is a total function, so no error is raised) and the
row emitted for that record has null song and artist ids. -/
theorem C3_lookup_miss_null_ids (db : DB) (file : List LogRecord) (i : Nat)
    (hi : i < (file.filter (fun r => decide (r.page = "NextSong"))).length)
    (hmiss : song_select db.songs db.artists
        ((file.filter (fun r => decide (r.page = "NextSong"))).get ⟨i, hi⟩).song
        ((file.filter (fun r => decide (r.page = "NextSong"))).get ⟨i, hi⟩).artist
        ((file.filter (fun r => decide (r.page = "NextSong"))).get ⟨i, hi⟩).length
        = []) :
    (process_log_file db file).songplays.length =
        db.songplays.length +
          (file.filter (fun r => decide (r.page = "NextSong"))).length ∧
      ∃ hj : db.songplays.length + i <
          (process_log_file db file).songplays.length,
        ((process_log_file db file).songplays.get
            ⟨db.songplays.length + i, hj⟩).song_id = none ∧
          ((process_log_file db file).songplays.get
            ⟨db.songplays.length + i, hj⟩).artist_id = none := by
  have hlen : (process_log_file db file).songplays.length =
      db.songplays.length +
        (file.filter (fun r => decide (r.page = "NextSong"))).length := by
    rw [process_log_file_songplays, List.length_append, factsFrom_length]
  refine ⟨hlen, ?_⟩
  have hj : db.songplays.length + i <
      (process_log_file db file).songplays.length := by
    rw [hlen]; omega
  have key : (process_log_file db file).songplays.get
      ⟨db.songplays.length + i, hj⟩ =
      factRow db.songs db.artists (db.songplays.length + i)
        ((file.filter (fun r => decide (r.page = "NextSong"))).get ⟨i, hi⟩) := by
    rw [List.get_eq_getElem,
      List.getElem_of_eq (process_log_file_songplays db file) hj,
      List.getElem_append_right (by omega)]
    simp only [Nat.add_sub_cancel_left]
    have hfl : i < (factsFrom db.songs db.artists db.songplays.length
        (file.filter (fun r => decide (r.page = "NextSong")))).length := by
      rw [factsFrom_length]; exact hi
    exact factsFrom_get db.songs db.artists _ db.songplays.length i hi hfl
  simp only [List.get_eq_getElem] at hmiss
  refine ⟨hj, ?_, ?_⟩ <;> rw [key] <;> simp [factRow, hmiss]

/-- C3 witness: the scenario-2 log record over the empty database, whose
lookup necessarily misses. -/
theorem C3_lookup_miss_witness :
    (process_log_file DB.empty [logRecordScenario2]).songplays.length =
        DB.empty.songplays.length +
          ([logRecordScenario2].filter
            (fun r => decide (r.page = "NextSong"))).length ∧
      ∃ hj : DB.empty.songplays.length + 0 <
          (process_log_file DB.empty [logRecordScenario2]).songplays.length,
        ((process_log_file DB.empty [logRecordScenario2]).songplays.get
            ⟨DB.empty.songplays.length + 0, hj⟩).song_id = none ∧
          ((process_log_file DB.empty [logRecordScenario2]).songplays.get
            ⟨DB.empty.songplays.length + 0, hj⟩).artist_id = none :=
  C3_lookup_miss_null_ids DB.empty [logRecordScenario2] 0 (by decide) (by decide)

/-- C4: records whose page is not NextSong contribute nothing to any of the
three outputs: processing any file equals processing only its NextSong
records, and a file containing only non NextSong records leaves the
database unchanged. -/
theorem C4_filter_only (db : DB) (file : List LogRecord) :
    process_log_file db file =
        process_log_file db
          (file.filter (fun r => decide (r.page = "NextSong"))) ∧
      process_log_file db
        (file.filter (fun r => !decide (r.page = "NextSong"))) = db := by
  constructor
  · rw [process_log_file_def, process_log_file_def, List.filter_filter]
    simp only [Bool.and_self]
  · rw [process_log_file_def, List.filter_filter]
    simp only [Bool.and_not_self, List.filter_false]
    rfl

/-- C6: a batch whose retained records are exactly two events with the same
ts, none of which is already in the time table, yields exactly one time row
with that timestamp and exactly two songplay rows. -/
theorem C6_time_dedup (db : DB) (file : List LogRecord) (r1 r2 : LogRecord)
    (hret : file.filter (fun r => decide (r.page = "NextSong")) = [r1, r2])
    (hts : r2.ts = r1.ts)
    (hfresh : ∀ x ∈ db.time, x.timestamp ≠ (⟨r1.ts⟩ : PdTimestamp)) :
    (process_log_file db file).time.countP
        (fun x => decide (x.timestamp = (⟨r1.ts⟩ : PdTimestamp))) = 1 ∧
      (process_log_file db file).songplays.length =
        db.songplays.length + 2 := by
  constructor
  · have htime : (process_log_file db file).time =
        (timePass db
          (file.filter (fun r => decide (r.page = "NextSong")))).time := by
      rw [process_log_file_def, songplayPass_time, userPass_time]
    rw [htime, hret]
    have h1 : ¬∃ y ∈ db.time, y.timestamp = (timeRowOf r1.ts).timestamp := by
      rintro ⟨y, hy, he⟩
      exact hfresh y hy he
    have e1 : insertTime db (timeRowOf r1.ts) =
        { db with time := db.time ++ [timeRowOf r1.ts] } := by
      unfold insertTime
      rw [if_neg h1]
    have h2 : ∃ y ∈ ({ db with time := db.time ++ [timeRowOf r1.ts] } : DB).time,
        y.timestamp = (timeRowOf r2.ts).timestamp := by
      refine ⟨timeRowOf r1.ts, by simp, ?_⟩
      simp [timeRowOf, hts]
    have e2 : insertTime ({ db with time := db.time ++ [timeRowOf r1.ts] } : DB)
        (timeRowOf r2.ts) =
        { db with time := db.time ++ [timeRowOf r1.ts] } := by
      unfold insertTime
      rw [if_pos h2]
    have e3 : timePass db [r1, r2] =
        insertTime (insertTime db (timeRowOf r1.ts)) (timeRowOf r2.ts) := rfl
    rw [e3, e1, e2]
    have h0 : db.time.countP
        (fun x => decide (x.timestamp = (⟨r1.ts⟩ : PdTimestamp))) = 0 :=
      List.countP_eq_zero.mpr (fun a ha => by simpa using hfresh a ha)
    simp [List.countP_append, h0, timeRowOf]
  · rw [process_log_file_songplays, List.length_append, factsFrom_length, hret]
    rfl

/-- C6 witness: two concrete NextSong records with the same ts over the
empty database. -/
theorem C6_time_dedup_witness :
    (process_log_file DB.empty
        [logRecordScenario3a, logRecordScenario3b]).time.countP
        (fun x => decide (x.timestamp =
          (⟨logRecordScenario3a.ts⟩ : PdTimestamp))) = 1 ∧
      (process_log_file DB.empty
          [logRecordScenario3a, logRecordScenario3b]).songplays.length =
        DB.empty.songplays.length + 2 :=
  C6_time_dedup DB.empty [logRecordScenario3a, logRecordScenario3b]
    logRecordScenario3a logRecordScenario3b (by decide) rfl (by simp [DB.empty])

/-- C7: membership in the SONG_SELECT result is exactly the condition of
the claim, a join of songs and artists on artist_id filtered by exact
equality of title, artist name and duration. But the scenario does not
resolve: after loading scenario 1, the scenario-2 record is emitted with
null song and artist ids, because the stored duration column holds the
year value 0 rather than 218.38 (the parameter and column lists of the
song insert disagree), so the exact-duration match fails. -/
theorem C7_lookup_semantics :
    (∀ (songs : List SongRow) (artists : List ArtistRow)
        (song artist : String) (len : Rat) (p : String × String),
      p ∈ song_select songs artists song artist len ↔
        ∃ s, s ∈ songs ∧ ∃ a, a ∈ artists ∧ a.artist_id = s.artist_id ∧
          s.title = song ∧ a.artist_name = artist ∧ s.duration = len ∧
          p = (s.song_id, s.artist_id)) ∧
      (process_log_file
          (process_song_file DB.empty [songRecordScenario1.toRaw]).1
          [logRecordScenario2]).songplays.map
        (fun row => (row.song_id, row.artist_id)) = [(none, none)] := by
  constructor
  · intro songs artists song artist len p
    constructor
    · intro hp
      simp only [song_select, List.mem_flatMap] at hp
      obtain ⟨s, hs, hp⟩ := hp
      rw [List.mem_filterMap] at hp
      obtain ⟨a, ha, hfa⟩ := hp
      by_cases hc : a.artist_id = s.artist_id ∧ s.title = song ∧
          a.artist_name = artist ∧ s.duration = len
      · rw [if_pos hc] at hfa
        obtain ⟨h1, h2, h3, h4⟩ := hc
        injection hfa with hfa
        exact ⟨s, hs, a, ha, h1, h2, h3, h4, hfa.symm⟩
      · rw [if_neg hc] at hfa
        exact absurd hfa (by simp)
    · rintro ⟨s, hs, a, ha, h1, h2, h3, h4, rfl⟩
      simp only [song_select, List.mem_flatMap]
      refine ⟨s, hs, ?_⟩
      rw [List.mem_filterMap]
      exact ⟨a, ha, by rw [if_pos ⟨h1, h2, h3, h4⟩]⟩
  · decide

/-- C9: every songplay row emitted by one call references a timestamp that
received a time insert in that same call (the same converted value of the
ts of its record) and a user id that received a user insert in that same
call, so both references resolve in the resulting tables. -/
theorem C9_references_resolve (db : DB) (file : List LogRecord)
    (row : SongplayRow)
    (hrow : row ∈ (process_log_file db file).songplays.drop
      db.songplays.length) :
    (∃ x ∈ (process_log_file db file).time, x.timestamp = row.timestamp) ∧
      ∃ u ∈ (process_log_file db file).users, u.user_id = row.user_id := by
  rw [process_log_file_songplays, List.drop_left] at hrow
  obtain ⟨r, hr, hts, hid⟩ := factsFrom_mem db.songs db.artists _ _ row hrow
  constructor
  · have htime : (process_log_file db file).time =
        (timePass db
          (file.filter (fun r => decide (r.page = "NextSong")))).time := by
      rw [process_log_file_def, songplayPass_time, userPass_time]
    obtain ⟨x, hx, he⟩ := timePass_key_exists _ db r hr
    refine ⟨x, ?_, ?_⟩
    · rw [htime]; exact hx
    · rw [he, hts]
  · have husers : (process_log_file db file).users =
        (userPass
          (timePass db (file.filter (fun r => decide (r.page = "NextSong"))))
          (file.filter (fun r => decide (r.page = "NextSong")))).users := by
      rw [process_log_file_def, songplayPass_users]
    obtain ⟨u, hu, he⟩ := userPass_key_exists _ _ r hr
    refine ⟨u, ?_, ?_⟩
    · rw [husers]; exact hu
    · rw [he, hid]

/-- C9 witness: the concrete row emitted for the scenario-2 record over the
empty database. -/
theorem C9_references_resolve_witness :
    songplayRowC9 ∈
        (process_log_file DB.empty [logRecordScenario2]).songplays.drop
          DB.empty.songplays.length ∧
      ((∃ x ∈ (process_log_file DB.empty [logRecordScenario2]).time,
          x.timestamp = songplayRowC9.timestamp) ∧
        ∃ u ∈ (process_log_file DB.empty [logRecordScenario2]).users,
          u.user_id = songplayRowC9.user_id) :=
  ⟨by decide,
   C9_references_resolve DB.empty [logRecordScenario2] songplayRowC9 (by decide)⟩
